import Mathlib

/-!
Shallow embedding of the serialized-release scheduler and notification
subsystem of the BirdsWithFriends repository
(`src/story_engine/scheduler.py`, `src/story_engine/notifications/*`),
together with proofs settling the frozen claims about it.

Conventions of the embedding:
* instants are `Int` seconds since an arbitrary epoch;
  `timedelta(days=1)` is 86400 s, `timedelta(weeks=1)` is 604800 s;
* the SQLAlchemy session is modelled as an explicit `DB` record threaded
  through each operation; `db.commit()` corresponds to returning the
  updated record.  The session is created with `autoflush=False`
  (`database.py:202`), so a query issued after an in-session attribute
  mutation and before `commit()` still observes the pre-mutation store;
  the embedding reflects this by evaluating such queries on the `DB`
  value from function entry;
* channel senders are passed in as functions (attempt number → result),
  mirroring the module-level `email_sender` / `webpush_sender` globals;
* timezone handling: callers pass an absolute instant (the aware-datetime
  path of `schedule_story_episodes`, where `astimezone` preserves the
  instant), and the timezone string is only stored on the story.
-/

/-- `ReleaseFrequency` enum (`models/__init__.py`): daily, weekly, custom. -/
inductive ReleaseFrequency where
  | daily
  | weekly
  | custom
deriving DecidableEq, Repr

/-- `EpisodeStatus` (`database.py:93`): draft, scheduled, published, archived. -/
inductive EpisodeStatus where
  | draft
  | scheduled
  | published
  | archived
deriving DecidableEq, Repr

/-- `NotificationType` (`models/__init__.py:298`); sms is unused by the worker. -/
inductive NotificationType where
  | email
  | webpush
deriving DecidableEq, Repr

/-- `NotificationStatus` (`models/__init__.py:305`). -/
inductive NotificationStatus where
  | pending
  | sent
  | failed
  | retrying
deriving DecidableEq, Repr

/-- The fields of the `Story` row (`database.py:18-62`) that the scheduler
and notification worker read or write. -/
structure Story where
  id : String
  completed_episodes : Nat
  start_date : Option Int
  release_frequency : ReleaseFrequency
  tz : String
  next_release_at : Option Int
  is_serialized : Bool
deriving DecidableEq, Repr

/-- The fields of the `Episode` row (`database.py:71-104`) that the
scheduler reads or writes.  `id` is the autoincrement primary key. -/
structure Episode where
  id : Nat
  story_id : String
  episode_index : Nat
  status : EpisodeStatus
  published_at : Option Int
  scheduled_for : Option Int
deriving DecidableEq, Repr

/-- An APScheduler job entry: id string, trigger instant, and the
`[story_id, episode_index]` argument payload. -/
structure Job where
  id : String
  run_date : Int
  story_id : String
  episode_index : Nat
deriving DecidableEq, Repr

/-- `NotificationPreferencesDB` row as used by the worker
(`notification_worker.py:77-90,105,115`): per-user channel flags and
email address. -/
structure NotificationPrefs where
  user_id : String
  email_notifications : Bool
  webpush_notifications : Bool
  email_address : Option String
deriving DecidableEq, Repr

/-- `PushSubscriptionDB` row as used by the worker
(`notification_worker.py:217-243`); `id` is row identity used by
`db.delete`. -/
structure PushSubscription where
  id : Nat
  user_id : String
  endpoint : String
  p256dh_key : String
  auth_key : String
deriving DecidableEq, Repr

/-- `NotificationLogDB` row (the per-attempt audit record).  Fields follow
the pydantic `NotificationLog` model (`models/__init__.py:342-355`) and the
worker's writes; constant timestamps (`created_at`/`updated_at`) are
omitted, `sent_at` is kept. -/
structure NotifLog where
  user_id : String
  story_id : String
  episode_index : Nat
  notification_type : NotificationType
  status : NotificationStatus
  attempts : Nat
  error_message : Option String
  sent_at : Option Int
deriving DecidableEq, Repr

/-- The relational store visible to the scheduler and worker, together
with the APScheduler job store. -/
structure DB where
  stories : List Story
  episodes : List Episode
  jobs : List Job
  preferences : List NotificationPrefs
  push_subscriptions : List PushSubscription
  notification_logs : List NotifLog
deriving DecidableEq, Repr

/-- Mutate the first element satisfying `p` (SQLAlchemy attribute
assignment on the single row returned by `.first()`). -/
def updateFirst (p : α → Bool) (f : α → α) : List α → List α
  | [] => []
  | a :: l => if p a then f a :: l else a :: updateFirst p f l

/-- `db.query(Story).filter(Story.id == story_id).first()`. -/
def findStory (db : DB) (sid : String) : Option Story :=
  db.stories.find? (fun s => decide (s.id = sid))

/-- `_calculate_next_release` (`scheduler.py:267-279`): daily → +24 h,
weekly → +7 d, anything else falls back to daily. -/
def calculate_next_release (current_time : Int) (frequency : ReleaseFrequency) : Int :=
  match frequency with
  | .daily => current_time + 86400
  | .weekly => current_time + 604800
  | .custom => current_time + 86400

/-- The deterministic job id `f"publish_episode_{story_id}_{episode_index}"`
(`scheduler.py:128`). -/
def jobId (sid : String) (i : Nat) : String :=
  s!"publish_episode_{sid}_{i}"

/-- `scheduler.add_job(..., replace_existing=True)`: any job with the same
id is replaced. -/
def addJobReplace (jobs : List Job) (j : Job) : List Job :=
  jobs.filter (fun x => !(x.id = j.id : Bool)) ++ [j]

/-- The `ORDER BY episode_index` relation. -/
def epLe (a b : Episode) : Prop :=
  a.episode_index ≤ b.episode_index

instance : DecidableRel epLe :=
  fun a b => Nat.decLe a.episode_index b.episode_index

instance : IsTotal Episode epLe :=
  ⟨fun a b => Nat.le_total a.episode_index b.episode_index⟩

instance : IsTrans Episode epLe :=
  ⟨fun _ _ _ => Nat.le_trans⟩

/-- The episodes eligible for scheduling (`scheduler.py:116-121`): rows of
the story in status draft or scheduled, ordered by `episode_index`. -/
def schedulableEpisodes (db : DB) (sid : String) : List Episode :=
  List.insertionSort epLe
    (db.episodes.filter
      (fun e => decide (e.story_id = sid ∧
        (e.status = EpisodeStatus.draft ∨ e.status = EpisodeStatus.scheduled))))

/-- The trigger-time assignment loop (`scheduler.py:124-154`): the first
eligible episode gets `t`, each next one the Release Clock applied to the
previous trigger. -/
def assignTriggers (eps : List Episode) (t : Int) (freq : ReleaseFrequency) :
    List (Episode × Int) :=
  match eps with
  | [] => []
  | e :: rest => (e, t) :: assignTriggers rest (calculate_next_release t freq) freq

/-- The full (episode, trigger time) assignment of one `schedule_story_episodes`
call: eligible episodes in index order, starting at
`_calculate_next_release(start_date, freq)` (`scheduler.py:112,124`). -/
def scheduleAssignment (db : DB) (sid : String) (start_date : Int)
    (freq : ReleaseFrequency) : List (Episode × Int) :=
  assignTriggers (schedulableEpisodes db sid)
    (calculate_next_release start_date freq) freq

/-- The per-row mutation of the scheduling loop (`scheduler.py:145-147`):
status scheduled, `scheduled_for` set to the assigned trigger. -/
def schedUpdate (t : Int) (x : Episode) : Episode :=
  { x with status := EpisodeStatus.scheduled, scheduled_for := some t }

/-- One iteration of the scheduling loop over the episode table: mutate
the row of the assigned episode (rows are identified by primary key). -/
def schedFoldStep (eps : List Episode) (et : Episode × Int) : List Episode :=
  updateFirst (fun x => decide (x.id = et.1.id)) (schedUpdate et.2) eps

/-- Result dictionary of `schedule_story_episodes` (`scheduler.py:160-165`). -/
structure ScheduleOutcome where
  story_id : String
  episodes_scheduled : Nat
  next_release : Int
deriving DecidableEq, Repr

/-- `schedule_story_episodes` (`scheduler.py:80-172`).  Raises (here:
`.error`) when the story is absent; otherwise stores serialization fields
on the story, assigns one job and a trigger time per draft/scheduled
episode in index order, and sets `next_release_at` to the first trigger. -/
def schedule_story_episodes (db : DB) (sid : String) (start_date : Int)
    (freq : ReleaseFrequency) (user_timezone : String) :
    Except String (DB × ScheduleOutcome) :=
  match findStory db sid with
  | none => .error s!"Story {sid} not found"
  | some _ =>
    let next_release := calculate_next_release start_date freq
    let stories' := updateFirst (fun s => decide (s.id = sid))
      (fun s => { s with
        is_serialized := true
        start_date := some start_date
        release_frequency := freq
        tz := user_timezone
        next_release_at := some next_release }) db.stories
    let pairs := scheduleAssignment db sid start_date freq
    let episodes' := pairs.foldl schedFoldStep db.episodes
    let jobs' := pairs.foldl
      (fun js et =>
        addJobReplace js
          ⟨jobId sid et.1.episode_index, et.2, sid, et.1.episode_index⟩)
      db.jobs
    .ok ({ db with stories := stories', episodes := episodes', jobs := jobs' },
         ⟨sid, pairs.length, next_release⟩)

/-- Predicate of the locked query in `_publish_episode`
(`scheduler.py:181-187`): same story, same index, status scheduled. -/
def schedPred (sid : String) (i : Nat) (e : Episode) : Bool :=
  decide (e.story_id = sid ∧ e.episode_index = i ∧
    e.status = EpisodeStatus.scheduled)

/-- `_send_episode_notification` (`scheduler.py:254-265`): the source only
logs a message ("This would integrate with notification service / For
now, just log it"); it creates no notification attempts, performs no
channel sends, and leaves the store untouched. -/
def send_episode_notification (db : DB) (_sid : String) (_i : Nat) : DB :=
  db

/-- The row mutation of the publish transition (`scheduler.py:194-195`):
status published, `published_at` stamped. -/
def publishUpdate (now : Int) (e : Episode) : Episode :=
  { e with status := EpisodeStatus.published, published_at := some now }

/-- Return value of `_publish_episode`: the committed store, whether the
scheduled→published transition happened, and whether
`_send_episode_notification` was invoked. -/
structure PublishResult where
  db : DB
  published : Bool
  notified : Bool
deriving DecidableEq, Repr

/-- `_publish_episode` (`scheduler.py:174-252`), the job-store-invoked
handler.  Reads the episode under `with_for_update`; returns a no-op when
no row of this (story, index) is currently scheduled.  Otherwise marks the
row published, and — when the story row exists — increments its
completed-episode counter and recomputes `next_release_at`: because the
session has `autoflush=False` (`database.py:202`), the
remaining-scheduled `count()` at `scheduler.py:203-208` runs against the
store as it was at entry (the in-session status change is unflushed), so
it is evaluated here on `db.episodes`, not on the updated list.  Commits,
then calls `_send_episode_notification`. -/
def publish_episode (db : DB) (sid : String) (i : Nat) (now : Int) :
    PublishResult :=
  match db.episodes.find? (schedPred sid i) with
  | none => ⟨db, false, false⟩
  | some _ =>
    let episodes' := updateFirst (schedPred sid i) (publishUpdate now)
      db.episodes
    match findStory db sid with
    | none =>
      let db' := { db with episodes := episodes' }
      ⟨send_episode_notification db' sid i, true, true⟩
    | some story =>
      let remaining := db.episodes.countP
        (fun e => decide (e.story_id = sid ∧
          e.status = EpisodeStatus.scheduled))
      let nextRel : Option Int :=
        if 0 < remaining then
          some (calculate_next_release now story.release_frequency)
        else none
      let stories' := updateFirst (fun s => decide (s.id = sid))
        (fun s => { s with
          completed_episodes := s.completed_episodes + 1
          next_release_at := nextRel }) db.stories
      let db' := { db with episodes := episodes', stories := stories' }
      ⟨send_episode_notification db' sid i, true, true⟩

/-- The job-removal loop of `cancel_story_schedule` (`scheduler.py:338-342`):
for each job id, remove it when live and count the removal. -/
def removeJobs (jobs : List Job) (ids : List String) (acc : Nat) :
    List Job × Nat :=
  match ids with
  | [] => (jobs, acc)
  | jid :: rest =>
    if jobs.any (fun j => decide (j.id = jid)) then
      removeJobs (jobs.filter (fun j => !(j.id = jid : Bool))) rest (acc + 1)
    else
      removeJobs jobs rest acc

/-- The per-row reset applied by `cancel_story_schedule`
(`scheduler.py:344-346`) to each scheduled episode of the story. -/
def cancelEp (sid : String) (e : Episode) : Episode :=
  if e.story_id = sid ∧ e.status = EpisodeStatus.scheduled then
    { e with status := EpisodeStatus.draft, scheduled_for := none }
  else e

/-- `cancel_story_schedule` (`scheduler.py:318-367`).  Raises when the
story is absent; otherwise removes the live job of every scheduled episode
of the story, resets those rows to draft with `scheduled_for` cleared, and
clears the story's serialization flag and `next_release_at`. -/
def cancel_story_schedule (db : DB) (sid : String) :
    Except String (DB × Nat) :=
  match findStory db sid with
  | none => .error s!"Story {sid} not found"
  | some _ =>
    let scheduled := db.episodes.filter
      (fun e => decide (e.story_id = sid ∧
        e.status = EpisodeStatus.scheduled))
    let rj :=
      removeJobs db.jobs (scheduled.map (fun e => jobId sid e.episode_index)) 0
    let episodes' := db.episodes.map (cancelEp sid)
    let stories' := updateFirst (fun s => decide (s.id = sid))
      (fun s => { s with is_serialized := false, next_release_at := none })
      db.stories
    .ok ({ db with stories := stories', episodes := episodes', jobs := rj.1 },
         rj.2)

/-- Result dictionary of an email send (`email_sender.py`): `success` flag
and optional `error` string. -/
structure EmailResult where
  success : Bool
  error : Option String
deriving DecidableEq, Repr

/-- Result dictionary of a web push send
(`webpush_sender.py:155-192`): `success`, the
`should_remove_subscription` flag, and optional `error_message`. -/
structure PushResult where
  success : Bool
  should_remove_subscription : Bool
  error_message : Option String
deriving DecidableEq, Repr

/-- Outcome of the underlying `pywebpush.webpush` transport call as
observed by `WebPushSender.send_notification`: delivery succeeded, a
`WebPushException` carrying an optional HTTP status, or another exception. -/
inductive WebpushTransport where
  | ok (status : Nat)
  | pushError (status : Option Nat) (msg : String)
  | otherError (msg : String)
deriving DecidableEq, Repr

/-- `WebPushSender.send_notification` error classification
(`webpush_sender.py:155-192`): success passes through; a
`WebPushException` with HTTP status 410 is classified as an expired
subscription (`should_remove_subscription=True`); every other failure is
a plain error. -/
def classifyWebpush (t : WebpushTransport) : PushResult :=
  match t with
  | .ok _ => ⟨true, false, none⟩
  | .pushError (some 410) _ =>
    ⟨false, true, some "Push subscription expired"⟩
  | .pushError _ msg => ⟨false, false, some msg⟩
  | .otherError msg => ⟨false, false, some msg⟩

/-- A freshly created `NotificationLogDB` row
(`notification_worker.py:149-157,224-232`): status pending, attempt count
at its model default 1 (`models/__init__.py:351`). -/
def initLog (uid sid : String) (i : Nat) (ty : NotificationType) : NotifLog :=
  ⟨uid, sid, i, ty, NotificationStatus.pending, 1, none, none⟩

/-- Outcome of the email retry loop: final committed log row, backoff
delays slept, number of sender invocations, and whether the final
exception propagated out of the loop. -/
structure EmailLoopOut where
  log : NotifLog
  delays : List Nat
  sendCalls : Nat
  raised : Bool
deriving DecidableEq, Repr

/-- The `while attempt < self.max_retries` retry loop of
`_send_email_notification` (`notification_worker.py:159-205`), with the
sender as a function of the attempt number.  The loop condition
`attempt < max_retries` is represented by the structural fuel, called with
`fuel = max_retries - attempt` (at the top, `fuel = max_retries`,
`attempt = 0`).  On success the log becomes sent; on failure the count is
bumped and either the loop fails-and-raises (budget exhausted) or sleeps
`base_delay * 2^(attempt-1)` and retries. -/
def emailAttemptLoop (send : Nat → EmailResult) (maxRetries baseDelay : Nat)
    (now : Int) : Nat → Nat → NotifLog → EmailLoopOut
  | 0, _, log => ⟨log, [], 0, false⟩
  | fuel + 1, attempt, log =>
    let result := send attempt
    if result.success then
      ⟨{ log with
          status := NotificationStatus.sent
          sent_at := some now
          attempts := attempt + 1 }, [], 1, false⟩
    else
      let attempt' := attempt + 1
      let log' := { log with
        attempts := attempt'
        error_message := some (result.error.getD "Email sending failed") }
      if maxRetries ≤ attempt' then
        ⟨{ log' with status := NotificationStatus.failed }, [], 1, true⟩
      else
        let delay := baseDelay * 2 ^ (attempt' - 1)
        let out := emailAttemptLoop send maxRetries baseDelay now fuel attempt'
          { log' with status := NotificationStatus.retrying }
        ⟨out.log, delay :: out.delays, out.sendCalls + 1, out.raised⟩

/-- Outcome of the web push retry loop for one subscription: final log
row, delays, sender invocations, whether the subscription was deleted,
and whether `sent_count` was incremented. -/
structure PushLoopOut where
  log : NotifLog
  delays : List Nat
  sendCalls : Nat
  deleted : Bool
  sent : Bool
deriving DecidableEq, Repr

/-- The per-subscription `while attempt < self.max_retries` loop of
`_send_webpush_notifications` (`notification_worker.py:234-298`), fuel as
in `emailAttemptLoop`.  Success marks the log sent and bumps the sent
count; `should_remove_subscription` deletes the subscription and marks
the log failed with "Subscription expired" — without raising; any other
failure is raised, caught, and either exhausts the budget (log failed,
loop `break`s without propagating) or sleeps and retries. -/
def pushAttemptLoop (send : Nat → PushResult) (maxRetries baseDelay : Nat)
    (now : Int) : Nat → Nat → NotifLog → PushLoopOut
  | 0, _, log => ⟨log, [], 0, false, false⟩
  | fuel + 1, attempt, log =>
    let result := send attempt
    if result.success then
      ⟨{ log with
          status := NotificationStatus.sent
          sent_at := some now
          attempts := attempt + 1 }, [], 1, false, true⟩
    else if result.should_remove_subscription then
      ⟨{ log with
          status := NotificationStatus.failed
          error_message := some "Subscription expired" }, [], 1, true, false⟩
    else
      let attempt' := attempt + 1
      let log' := { log with
        attempts := attempt'
        error_message := some (result.error_message.getD "Web push failed") }
      if maxRetries ≤ attempt' then
        ⟨{ log' with status := NotificationStatus.failed }, [], 1, false, false⟩
      else
        let delay := baseDelay * 2 ^ (attempt' - 1)
        let out := pushAttemptLoop send maxRetries baseDelay now fuel attempt'
          { log' with status := NotificationStatus.retrying }
        ⟨out.log, delay :: out.delays, out.sendCalls + 1, out.deleted, out.sent⟩

/-- Recipient resolution of `send_episode_notifications`
(`notification_worker.py:76-90`): with a `user_id`, exactly that user's
preference row (enabled or not); without one, the rows where **both**
`email_notifications` and `webpush_notifications` are true (the query
combines the two flags with `and_`). -/
def users_to_notify (db : DB) (user_id : Option String) :
    List NotificationPrefs :=
  match user_id with
  | some uid =>
    match db.preferences.find? (fun p => decide (p.user_id = uid)) with
    | some p => [p]
    | none => []
  | none =>
    db.preferences.filter
      (fun p => p.email_notifications && p.webpush_notifications)

/-- Python truthiness of the `email_address` column in
`if user_prefs.email_notifications and user_prefs.email_address:`
(`notification_worker.py:105`): NULL and the empty string are falsy. -/
def emailAddrTruthy : Option String → Bool
  | none => false
  | some a => !(a = "" : Bool)

/-- The `for subscription in subscriptions` loop of
`_send_webpush_notifications` (`notification_worker.py:223-298`) over the
subscription snapshot fetched at entry: one pending log row and one retry
loop per subscription; an expired subscription is deleted from the store;
returns the updated store and the sent count. -/
def webpushSubLoop (sendPush : String → Nat → PushResult)
    (maxRetries baseDelay : Nat) (now : Int) (uid sid : String) (i : Nat) :
    DB → List PushSubscription → DB × Nat
  | db, [] => (db, 0)
  | db, sub :: rest =>
    let out := pushAttemptLoop (sendPush sub.endpoint) maxRetries baseDelay
      now maxRetries 0 (initLog uid sid i NotificationType.webpush)
    let subs' :=
      if out.deleted then
        db.push_subscriptions.filter (fun s => !(s.id = sub.id : Bool))
      else db.push_subscriptions
    let db' := { db with
      notification_logs := db.notification_logs ++ [out.log]
      push_subscriptions := subs' }
    let (db'', n) :=
      webpushSubLoop sendPush maxRetries baseDelay now uid sid i db' rest
    (db'', (if out.sent then 1 else 0) + n)

/-- `_send_webpush_notifications` (`notification_worker.py:207-300`):
fetch the user's subscriptions, then run the per-subscription loop.  No
code path of this function raises to its caller. -/
def send_webpush_notifications (db : DB) (uid sid : String) (i : Nat)
    (sendPush : String → Nat → PushResult) (maxRetries baseDelay : Nat)
    (now : Int) : DB × Nat :=
  let subs := db.push_subscriptions.filter (fun s => decide (s.user_id = uid))
  webpushSubLoop sendPush maxRetries baseDelay now uid sid i db subs

/-- The body of the per-user `try` block of `send_episode_notifications`
(`notification_worker.py:102-129`): email channel first (an exception
escaping `_send_email_notification` aborts the rest of this user's block
and is reported as `Failed to notify user ...`), then one push attempt
per subscription.  Returns (store, email increment, push count, escaped
exception message). -/
def notify_user (db : DB) (p : NotificationPrefs) (sid : String) (i : Nat)
    (sendEmail : String → Nat → EmailResult)
    (sendPush : String → Nat → PushResult)
    (maxRetries baseDelay : Nat) (now : Int) :
    DB × Nat × Nat × Option String :=
  let emailStep : DB × Nat × Option String :=
    if p.email_notifications && emailAddrTruthy p.email_address then
      let addr := p.email_address.getD ""
      let out := emailAttemptLoop (sendEmail addr) maxRetries baseDelay now
        maxRetries 0 (initLog p.user_id sid i NotificationType.email)
      let db1 := { db with
        notification_logs := db.notification_logs ++ [out.log] }
      let emsg := out.log.error_message.getD ""
      if out.raised then
        (db1, 0, some s!"Failed to notify user {p.user_id}: {emsg}")
      else (db1, 1, none)
    else (db, 0, none)
  match emailStep with
  | (db1, eInc, some msg) => (db1, eInc, 0, some msg)
  | (db1, eInc, none) =>
    if p.webpush_notifications then
      let (db2, cnt) :=
        send_webpush_notifications db1 p.user_id sid i sendPush maxRetries
          baseDelay now
      (db2, eInc, cnt, none)
    else (db1, eInc, 0, none)

/-- The `results` dictionary of `send_episode_notifications`
(`notification_worker.py:92-99`). -/
structure FanoutTotals where
  story_id : String
  episode_index : Nat
  notifications_sent : Nat
  email_sent : Nat
  webpush_sent : Nat
  errors : List String
deriving DecidableEq, Repr

/-- `send_episode_notifications` (`notification_worker.py:46-138`), the
episode-published notification entry point.  Raises when the story or the
episode row is absent; otherwise resolves the recipients and runs the
per-user block, catching a per-user exception into `errors` and counting
the user in `notifications_sent` only when none escaped. -/
def send_episode_notifications (db : DB) (sid : String) (i : Nat)
    (user_id : Option String) (sendEmail : String → Nat → EmailResult)
    (sendPush : String → Nat → PushResult) (maxRetries baseDelay : Nat)
    (now : Int) : Except String (DB × FanoutTotals) :=
  match findStory db sid with
  | none => .error s!"Story {sid} not found"
  | some _ =>
    match db.episodes.find?
        (fun e => decide (e.story_id = sid ∧ e.episode_index = i)) with
    | none => .error s!"Episode {sid}/{i} not found"
    | some _ =>
      let users := users_to_notify db user_id
      let out := users.foldl
        (fun acc p =>
          let r := notify_user acc.1 p sid i sendEmail sendPush maxRetries
            baseDelay now
          let t := acc.2
          match r.2.2.2 with
          | some m =>
            (r.1, { t with
              email_sent := t.email_sent + r.2.1
              webpush_sent := t.webpush_sent + r.2.2.1
              errors := t.errors ++ [m] })
          | none =>
            (r.1, { t with
              notifications_sent := t.notifications_sent + 1
              email_sent := t.email_sent + r.2.1
              webpush_sent := t.webpush_sent + r.2.2.1 }))
        (db, ⟨sid, i, 0, 0, 0, []⟩)
      .ok out

/-! ### Helper lemmas -/

theorem find?_eq_none_of_countP_zero {α : Type} (p q : α → Bool) (l : List α)
    (hpq : ∀ a, p a = true → q a = true) (h : l.countP q = 0) :
    l.find? p = none := by
  rw [List.find?_eq_none]
  intro x hx hp
  exact (List.countP_eq_zero.mp h x hx) (hpq x hp)

theorem find?_updateFirst_none {α : Type} (p q : α → Bool) (f : α → α)
    (l : List α) (hpq : ∀ a, p a = true → q a = true)
    (hf : ∀ a, p (f a) = false) (hcount : l.countP q ≤ 1) :
    (updateFirst p f l).find? p = none := by
  induction l with
  | nil => rfl
  | cons a l ih =>
    by_cases hpa : p a = true
    · simp only [updateFirst, hpa, if_true]
      rw [List.find?_cons_of_neg _ (by simp [hf a])]
      have hqa : q a = true := hpq a hpa
      have h0 : l.countP q = 0 := by
        rw [List.countP_cons, hqa, if_pos rfl] at hcount
        omega
      exact find?_eq_none_of_countP_zero p q l hpq h0
    · have hpa' : p a = false := by simpa using hpa
      simp only [updateFirst, hpa', Bool.false_eq_true, if_false]
      rw [List.find?_cons_of_neg _ (by simp [hpa'])]
      apply ih
      have hle : l.countP q ≤ (a :: l).countP q := by
        rw [List.countP_cons]
        exact Nat.le_add_right _ _
      exact le_trans hle hcount

/-- A successful publish rewrites the episode table by `updateFirst` with
`publishUpdate`, reports the transition, and invokes the notification
routine, whatever the story row looks like. -/
theorem publish_episode_success_shape (db : DB) (sid : String) (i : Nat)
    (now : Int) (e : Episode)
    (h : db.episodes.find? (schedPred sid i) = some e) :
    (publish_episode db sid i now).db.episodes =
      updateFirst (schedPred sid i) (publishUpdate now) db.episodes ∧
    (publish_episode db sid i now).published = true ∧
    (publish_episode db sid i now).notified = true := by
  unfold publish_episode
  rw [h]
  cases findStory db sid <;>
    simp [send_episode_notification]

/-- C1: invoking `publish_episode` twice in succession for the same
(story, episode), starting from a scheduled episode (with the episode
index unique within the story, per the data model), performs exactly one
scheduled→published transition and one notification invocation; the
second call returns immediately as a no-op with the store unchanged,
because its lock-then-check query finds no scheduled row. -/
theorem publish_episode_idempotent (db : DB) (sid : String) (i : Nat)
    (n1 n2 : Int) (e : Episode)
    (hsched : db.episodes.find? (schedPred sid i) = some e)
    (huniq : db.episodes.countP
      (fun x => decide (x.story_id = sid ∧ x.episode_index = i)) ≤ 1) :
    (publish_episode db sid i n1).published = true ∧
    (publish_episode db sid i n1).notified = true ∧
    publish_episode (publish_episode db sid i n1).db sid i n2 =
      ⟨(publish_episode db sid i n1).db, false, false⟩ := by
  obtain ⟨heps, hpub, hnot⟩ :=
    publish_episode_success_shape db sid i n1 e hsched
  refine ⟨hpub, hnot, ?_⟩
  have hnone : ((publish_episode db sid i n1).db.episodes).find?
      (schedPred sid i) = none := by
    rw [heps]
    apply find?_updateFirst_none (schedPred sid i)
      (fun x => decide (x.story_id = sid ∧ x.episode_index = i))
    · intro a ha
      simp only [schedPred, decide_eq_true_eq] at ha ⊢
      exact ⟨ha.1, ha.2.1⟩
    · intro a
      simp [schedPred, publishUpdate]
    · exact huniq
  generalize publish_episode db sid i n1 = r1 at hnone ⊢
  unfold publish_episode
  rw [hnone]

/-- C1 witness: a concrete one-story, one-scheduled-episode store on
which the idempotency theorem applies. -/
theorem publish_episode_idempotent_witness :
    (DB.mk [⟨"s", 0, none, ReleaseFrequency.daily, "UTC", some 50, true⟩]
        [⟨1, "s", 1, EpisodeStatus.scheduled, none, some 50⟩] [] [] [] []).episodes.find?
        (schedPred "s" 1) =
      some ⟨1, "s", 1, EpisodeStatus.scheduled, none, some 50⟩ ∧
    (publish_episode
        (DB.mk [⟨"s", 0, none, ReleaseFrequency.daily, "UTC", some 50, true⟩]
          [⟨1, "s", 1, EpisodeStatus.scheduled, none, some 50⟩] [] [] [] [])
        "s" 1 100).published = true ∧
    (publish_episode
        (DB.mk [⟨"s", 0, none, ReleaseFrequency.daily, "UTC", some 50, true⟩]
          [⟨1, "s", 1, EpisodeStatus.scheduled, none, some 50⟩] [] [] [] [])
        "s" 1 100).notified = true ∧
    publish_episode
        (publish_episode
          (DB.mk [⟨"s", 0, none, ReleaseFrequency.daily, "UTC", some 50, true⟩]
            [⟨1, "s", 1, EpisodeStatus.scheduled, none, some 50⟩] [] [] [] [])
          "s" 1 100).db "s" 1 200 =
      ⟨(publish_episode
          (DB.mk [⟨"s", 0, none, ReleaseFrequency.daily, "UTC", some 50, true⟩]
            [⟨1, "s", 1, EpisodeStatus.scheduled, none, some 50⟩] [] [] [] [])
          "s" 1 100).db, false, false⟩ := by
  refine ⟨by decide, ?_⟩
  have h := publish_episode_idempotent
    (DB.mk [⟨"s", 0, none, ReleaseFrequency.daily, "UTC", some 50, true⟩]
      [⟨1, "s", 1, EpisodeStatus.scheduled, none, some 50⟩] [] [] [] [])
    "s" 1 100 200 ⟨1, "s", 1, EpisodeStatus.scheduled, none, some 50⟩
    (by decide) (by decide)
  exact ⟨h.1, h.2.1, h.2.2⟩

/-! ### C2 support lemmas -/

theorem assignTriggers_fst (eps : List Episode) (t : Int)
    (f : ReleaseFrequency) :
    (assignTriggers eps t f).map Prod.fst = eps := by
  induction eps generalizing t with
  | nil => rfl
  | cons e rest ih => simp [assignTriggers, ih]

theorem assignTriggers_daily_getElem? (eps : List Episode) (t : Int)
    (k : Nat) :
    (assignTriggers eps t ReleaseFrequency.daily)[k]? =
      eps[k]?.map (fun e => (e, t + 86400 * k)) := by
  induction eps generalizing t k with
  | nil => simp [assignTriggers]
  | cons e rest ih =>
    cases k with
    | zero => simp [assignTriggers]
    | succ k =>
      simp only [assignTriggers, List.getElem?_cons_succ]
      rw [show calculate_next_release t ReleaseFrequency.daily = t + 86400
        from rfl, ih]
      cases h : rest[k]? with
      | none => rfl
      | some a =>
        simp only [Option.map_some', Option.some.injEq, Prod.mk.injEq]
        refine ⟨trivial, ?_⟩
        push_cast
        ring

theorem mem_updateFirst_ne_id (x : Episode) (j : Nat) (f : Episode → Episode)
    (l : List Episode) (hx : x ∈ l) (hne : x.id ≠ j) :
    x ∈ updateFirst (fun a => decide (a.id = j)) f l := by
  induction l with
  | nil => cases hx
  | cons h t ih =>
    by_cases hh : h.id = j
    · simp only [updateFirst, decide_eq_true_eq, if_pos hh]
      cases List.mem_cons.mp hx with
      | inl he => exact absurd (he ▸ hh) hne
      | inr ht => exact List.mem_cons_of_mem _ ht
    · simp only [updateFirst, decide_eq_true_eq, if_neg hh]
      cases List.mem_cons.mp hx with
      | inl he => exact he ▸ List.mem_cons_self _ _
      | inr ht => exact List.mem_cons_of_mem _ (ih ht)

theorem updateFirst_self_mem (x : Episode) (f : Episode → Episode)
    (l : List Episode) (hx : x ∈ l)
    (hnodup : (l.map Episode.id).Nodup) :
    f x ∈ updateFirst (fun a => decide (a.id = x.id)) f l := by
  induction l with
  | nil => cases hx
  | cons h t ih =>
    rw [List.map_cons, List.nodup_cons] at hnodup
    by_cases hh : h.id = x.id
    · have hxh : x = h := by
        cases List.mem_cons.mp hx with
        | inl he => exact he
        | inr ht =>
          exact absurd (hh ▸ List.mem_map_of_mem Episode.id ht) hnodup.1
      subst hxh
      simp only [updateFirst, decide_eq_true_eq, if_pos hh]
      exact List.mem_cons_self _ _
    · have hxt : x ∈ t := by
        cases List.mem_cons.mp hx with
        | inl he => exact absurd (he ▸ rfl) hh
        | inr ht => exact ht
      simp only [updateFirst, decide_eq_true_eq, if_neg hh]
      exact List.mem_cons_of_mem _ (ih hxt hnodup.2)

theorem map_id_updateFirst (p : Episode → Bool) (f : Episode → Episode)
    (hf : ∀ a, (f a).id = a.id) (l : List Episode) :
    (updateFirst p f l).map Episode.id = l.map Episode.id := by
  induction l with
  | nil => rfl
  | cons h t ih =>
    by_cases hh : p h = true
    · simp [updateFirst, hh, hf]
    · have hh' : p h = false := by simpa using hh
      simp [updateFirst, hh', ih]

theorem mem_schedFold_of_ne_ids (x : Episode) (ps : List (Episode × Int))
    (eps : List Episode) (hx : x ∈ eps)
    (h : ∀ et ∈ ps, et.1.id ≠ x.id) :
    x ∈ ps.foldl schedFoldStep eps := by
  induction ps generalizing eps with
  | nil => simpa using hx
  | cons et rest ih =>
    simp only [List.foldl_cons]
    apply ih
    · exact mem_updateFirst_ne_id x et.1.id _ eps hx
        (fun hc => (h et (List.mem_cons_self _ _)) hc.symm)
    · exact fun et' h' => h et' (List.mem_cons_of_mem _ h')

theorem schedFold_mem (ps : List (Episode × Int)) (eps : List Episode)
    (hnodup : (eps.map Episode.id).Nodup)
    (hpnodup : (ps.map (fun et => et.1.id)).Nodup)
    (hmem : ∀ et ∈ ps, et.1 ∈ eps) :
    ∀ et ∈ ps, schedUpdate et.2 et.1 ∈ ps.foldl schedFoldStep eps := by
  induction ps generalizing eps with
  | nil => intro et het; cases het
  | cons et0 rest ih =>
    rw [List.map_cons, List.nodup_cons] at hpnodup
    intro et het
    simp only [List.foldl_cons]
    cases List.mem_cons.mp het with
    | inl he =>
      subst he
      apply mem_schedFold_of_ne_ids
      · exact updateFirst_self_mem et.1 _ eps
          (hmem et (List.mem_cons_self _ _)) hnodup
      · intro et' h' hc
        exact hpnodup.1 (hc ▸ List.mem_map_of_mem (fun et => et.1.id) h')
    | inr ht =>
      apply ih
      · rw [show schedFoldStep eps et0 =
            updateFirst (fun x => decide (x.id = et0.1.id))
              (schedUpdate et0.2) eps from rfl,
          map_id_updateFirst _ (schedUpdate et0.2) (fun a => rfl)]
        exact hnodup
      · exact hpnodup.2
      · intro et' h'
        apply mem_updateFirst_ne_id _ _ _ _
          (hmem et' (List.mem_cons_of_mem _ h'))
        intro hc
        exact hpnodup.1 (hc ▸ List.mem_map_of_mem (fun et => et.1.id) h')
      · exact ht

/-- C2 (amended): for a story present in the store, with primary keys of
the episode table distinct, scheduling with cadence daily assigns — in
increasing episode-index order and independently of the timezone string —
the trigger times `start+24h, start+48h, …` to the draft/scheduled
episodes: the k-th eligible episode (0-based, index order) receives
`start_date + 86400*(k+1)`, each assigned row is stored scheduled with
that trigger, and the returned `next_release` (the first trigger) is
`start_date + 86400`, **not** `start_date`. -/
theorem schedule_story_episodes_daily_triggers (db : DB) (sid : String)
    (start_date : Int) (tzs : String) (st : Story)
    (hst : findStory db sid = some st)
    (hid : (db.episodes.map Episode.id).Nodup) :
    ∃ db' out,
      schedule_story_episodes db sid start_date ReleaseFrequency.daily tzs =
        .ok (db', out) ∧
      out.next_release = start_date + 86400 ∧
      List.Sorted epLe (schedulableEpisodes db sid) ∧
      (∀ k : Nat,
        (scheduleAssignment db sid start_date ReleaseFrequency.daily)[k]? =
          (schedulableEpisodes db sid)[k]?.map
            (fun e => (e, start_date + 86400 * (k + 1)))) ∧
      (∀ et ∈ scheduleAssignment db sid start_date ReleaseFrequency.daily,
        schedUpdate et.2 et.1 ∈ db'.episodes) := by
  have hperm := List.perm_insertionSort epLe
    (db.episodes.filter
      (fun e => decide (e.story_id = sid ∧
        (e.status = EpisodeStatus.draft ∨ e.status = EpisodeStatus.scheduled))))
  have hsubids : ((schedulableEpisodes db sid).map Episode.id).Nodup := by
    have h1 := (List.filter_sublist (l := db.episodes)
      (p := fun e => decide (e.story_id = sid ∧
        (e.status = EpisodeStatus.draft ∨
          e.status = EpisodeStatus.scheduled)))).map Episode.id
    exact (hperm.map Episode.id).nodup_iff.mpr (hid.sublist h1)
  have hpnodup :
      ((scheduleAssignment db sid start_date ReleaseFrequency.daily).map
        (fun et => et.1.id)).Nodup := by
    have hmm : (scheduleAssignment db sid start_date
          ReleaseFrequency.daily).map (fun et => et.1.id) =
        ((scheduleAssignment db sid start_date
          ReleaseFrequency.daily).map Prod.fst).map Episode.id := by
      rw [List.map_map]
      rfl
    rw [hmm, scheduleAssignment, assignTriggers_fst]
    exact hsubids
  have hmem : ∀ et ∈ scheduleAssignment db sid start_date
      ReleaseFrequency.daily, et.1 ∈ db.episodes := by
    intro et' h'
    have h1 : et'.1 ∈ (scheduleAssignment db sid start_date
        ReleaseFrequency.daily).map Prod.fst :=
      List.mem_map_of_mem Prod.fst h'
    rw [scheduleAssignment, assignTriggers_fst] at h1
    exact List.mem_of_mem_filter (hperm.mem_iff.mp h1)
  unfold schedule_story_episodes
  rw [hst]
  refine ⟨_, _, rfl, rfl, ?_, ?_, ?_⟩
  · exact List.sorted_insertionSort epLe _
  · intro k
    rw [scheduleAssignment, assignTriggers_daily_getElem?,
      show calculate_next_release start_date ReleaseFrequency.daily =
        start_date + 86400 from rfl]
    cases h : (schedulableEpisodes db sid)[k]? with
    | none => rfl
    | some e =>
      simp only [Option.map_some', Option.some.injEq, Prod.mk.injEq]
      refine ⟨trivial, ?_⟩
      ring
  · intro et het
    exact schedFold_mem _ db.episodes hid hpnodup hmem et het

/-- C2 counterexample: claim as stated is false — on a one-episode story
scheduled from `start_instant = 0` with daily cadence, the first (and
only) scheduled episode's trigger time is 86400 (= start + 24 h), not 0,
and the returned `next_release` equals 86400. -/
theorem schedule_first_trigger_counterexample :
    ((schedule_story_episodes
        (DB.mk [⟨"s", 0, none, ReleaseFrequency.daily, "UTC", none, false⟩]
          [⟨1, "s", 1, EpisodeStatus.draft, none, none⟩] [] [] [] [])
        "s" 0 ReleaseFrequency.daily "UTC").toOption.map
      (fun r => r.1.episodes.map Episode.scheduled_for)) =
        some [some 86400] ∧
    ((schedule_story_episodes
        (DB.mk [⟨"s", 0, none, ReleaseFrequency.daily, "UTC", none, false⟩]
          [⟨1, "s", 1, EpisodeStatus.draft, none, none⟩] [] [] [] [])
        "s" 0 ReleaseFrequency.daily "UTC").toOption.map
      (fun r => r.1.episodes.map Episode.scheduled_for)) ≠
        some [some 0] ∧
    ((schedule_story_episodes
        (DB.mk [⟨"s", 0, none, ReleaseFrequency.daily, "UTC", none, false⟩]
          [⟨1, "s", 1, EpisodeStatus.draft, none, none⟩] [] [] [] [])
        "s" 0 ReleaseFrequency.daily "UTC").toOption.map
      (fun r => r.2.next_release)) = some 86400 := by
  refine ⟨by decide, by decide, by decide⟩

/-- C2 witness: the amended trigger-time theorem applied to a concrete
three-episode story. -/
theorem schedule_story_episodes_daily_triggers_witness :
    findStory
      (DB.mk [⟨"s", 0, none, ReleaseFrequency.daily, "UTC", none, false⟩]
        [⟨1, "s", 1, EpisodeStatus.draft, none, none⟩,
         ⟨2, "s", 2, EpisodeStatus.draft, none, none⟩,
         ⟨3, "s", 3, EpisodeStatus.draft, none, none⟩] [] [] [] []) "s" =
      some ⟨"s", 0, none, ReleaseFrequency.daily, "UTC", none, false⟩ ∧
    ((DB.mk [⟨"s", 0, none, ReleaseFrequency.daily, "UTC", none, false⟩]
        [⟨1, "s", 1, EpisodeStatus.draft, none, none⟩,
         ⟨2, "s", 2, EpisodeStatus.draft, none, none⟩,
         ⟨3, "s", 3, EpisodeStatus.draft, none, none⟩] [] [] [] []).episodes.map
      Episode.id).Nodup ∧
    (∃ db' out,
      schedule_story_episodes
        (DB.mk [⟨"s", 0, none, ReleaseFrequency.daily, "UTC", none, false⟩]
          [⟨1, "s", 1, EpisodeStatus.draft, none, none⟩,
           ⟨2, "s", 2, EpisodeStatus.draft, none, none⟩,
           ⟨3, "s", 3, EpisodeStatus.draft, none, none⟩] [] [] [] [])
        "s" 1000 ReleaseFrequency.daily "Asia/Tokyo" = .ok (db', out) ∧
      out.next_release = 1000 + 86400 ∧
      List.Sorted epLe (schedulableEpisodes
        (DB.mk [⟨"s", 0, none, ReleaseFrequency.daily, "UTC", none, false⟩]
          [⟨1, "s", 1, EpisodeStatus.draft, none, none⟩,
           ⟨2, "s", 2, EpisodeStatus.draft, none, none⟩,
           ⟨3, "s", 3, EpisodeStatus.draft, none, none⟩] [] [] [] []) "s") ∧
      (∀ k : Nat,
        (scheduleAssignment
          (DB.mk [⟨"s", 0, none, ReleaseFrequency.daily, "UTC", none, false⟩]
            [⟨1, "s", 1, EpisodeStatus.draft, none, none⟩,
             ⟨2, "s", 2, EpisodeStatus.draft, none, none⟩,
             ⟨3, "s", 3, EpisodeStatus.draft, none, none⟩] [] [] [] [])
          "s" 1000 ReleaseFrequency.daily)[k]? =
          (schedulableEpisodes
            (DB.mk [⟨"s", 0, none, ReleaseFrequency.daily, "UTC", none, false⟩]
              [⟨1, "s", 1, EpisodeStatus.draft, none, none⟩,
               ⟨2, "s", 2, EpisodeStatus.draft, none, none⟩,
               ⟨3, "s", 3, EpisodeStatus.draft, none, none⟩] [] [] [] [])
            "s")[k]?.map (fun e => (e, (1000 : Int) + 86400 * (k + 1)))) ∧
      (∀ et ∈ scheduleAssignment
          (DB.mk [⟨"s", 0, none, ReleaseFrequency.daily, "UTC", none, false⟩]
            [⟨1, "s", 1, EpisodeStatus.draft, none, none⟩,
             ⟨2, "s", 2, EpisodeStatus.draft, none, none⟩,
             ⟨3, "s", 3, EpisodeStatus.draft, none, none⟩] [] [] [] [])
          "s" 1000 ReleaseFrequency.daily,
        schedUpdate et.2 et.1 ∈ db'.episodes)) := by
  refine ⟨by decide, by decide, ?_⟩
  exact schedule_story_episodes_daily_triggers _ "s" 1000 "Asia/Tokyo"
    ⟨"s", 0, none, ReleaseFrequency.daily, "UTC", none, false⟩
    (by decide) (by decide)

/-! ### C3, C4 -/

/-- C3 (amended): the publish handler does invoke its notification
routine on every successful transition, but `_send_episode_notification`
only logs: across every `publish_episode` call the NotificationAttempt
table, the push subscriptions and the preferences are left untouched — no
per-user fan-out happens in the publish path (the dispatcher
`send_episode_notifications` exists but is never called from it). -/
theorem publish_episode_notification_is_stub (db : DB) (sid : String)
    (i : Nat) (now : Int) :
    (publish_episode db sid i now).db.notification_logs =
      db.notification_logs ∧
    (publish_episode db sid i now).db.push_subscriptions =
      db.push_subscriptions ∧
    (publish_episode db sid i now).db.preferences = db.preferences ∧
    (publish_episode db sid i now).notified =
      (publish_episode db sid i now).published := by
  unfold publish_episode
  cases db.episodes.find? (schedPred sid i) with
  | none => exact ⟨rfl, rfl, rfl, rfl⟩
  | some e =>
    cases findStory db sid with
    | none => exact ⟨rfl, rfl, rfl, rfl⟩
    | some st => exact ⟨rfl, rfl, rfl, rfl⟩

/-- C3 counterexample: a successful publish with an eligible recipient on
file creates no NotificationAttempt record and performs no channel send —
the claimed fan-out does not happen. -/
theorem publish_no_fanout_counterexample :
    (publish_episode
      (DB.mk [⟨"s", 0, none, ReleaseFrequency.daily, "UTC", some 50, true⟩]
        [⟨1, "s", 1, EpisodeStatus.scheduled, none, some 50⟩] []
        [⟨"u1", true, true, some "u1@x"⟩] [⟨1, "u1", "e1", "k", "a"⟩] [])
      "s" 1 100).published = true ∧
    users_to_notify
      (DB.mk [⟨"s", 0, none, ReleaseFrequency.daily, "UTC", some 50, true⟩]
        [⟨1, "s", 1, EpisodeStatus.scheduled, none, some 50⟩] []
        [⟨"u1", true, true, some "u1@x"⟩] [⟨1, "u1", "e1", "k", "a"⟩] [])
      none ≠ [] ∧
    (publish_episode
      (DB.mk [⟨"s", 0, none, ReleaseFrequency.daily, "UTC", some 50, true⟩]
        [⟨1, "s", 1, EpisodeStatus.scheduled, none, some 50⟩] []
        [⟨"u1", true, true, some "u1@x"⟩] [⟨1, "u1", "e1", "k", "a"⟩] [])
      "s" 1 100).db.notification_logs = [] := by
  refine ⟨by decide, by decide, by decide⟩

/-- C4 (amended): when the notification entry point is called without a
`user_id`, the resolved fan-out set is exactly the preference rows with
**both** channels enabled — `email_notifications AND
webpush_notifications` — not those with at least one enabled channel. -/
theorem users_to_notify_both_channels (db : DB) (p : NotificationPrefs) :
    p ∈ users_to_notify db none ↔
      p ∈ db.preferences ∧ p.email_notifications = true ∧
        p.webpush_notifications = true := by
  simp [users_to_notify, List.mem_filter, Bool.and_eq_true, and_assoc]

/-- C4 counterexample: a user with email enabled (address on file) but
web push disabled has an enabled channel, yet is not resolved: the
fan-out set is empty and the entry point sends nothing and changes
nothing. -/
theorem users_to_notify_counterexample :
    ((⟨"u1", true, false, some "u1@x"⟩ : NotificationPrefs).email_notifications
        = true ∨
      (⟨"u1", true, false, some "u1@x"⟩ :
        NotificationPrefs).webpush_notifications = true) ∧
    users_to_notify
      (DB.mk [⟨"s", 0, none, ReleaseFrequency.daily, "UTC", none, false⟩]
        [⟨1, "s", 1, EpisodeStatus.published, some 10, none⟩] []
        [⟨"u1", true, false, some "u1@x"⟩] [] [])
      none = [] ∧
    (send_episode_notifications
      (DB.mk [⟨"s", 0, none, ReleaseFrequency.daily, "UTC", none, false⟩]
        [⟨1, "s", 1, EpisodeStatus.published, some 10, none⟩] []
        [⟨"u1", true, false, some "u1@x"⟩] [] [])
      "s" 1 none (fun _ _ => ⟨true, none⟩) (fun _ _ => ⟨true, false, none⟩)
      3 1 500).toOption =
      some (DB.mk [⟨"s", 0, none, ReleaseFrequency.daily, "UTC", none, false⟩]
        [⟨1, "s", 1, EpisodeStatus.published, some 10, none⟩] []
        [⟨"u1", true, false, some "u1@x"⟩] [] [],
        ⟨"s", 1, 0, 0, 0, []⟩) := by
  refine ⟨Or.inl (by decide), by decide, by decide⟩

/-! ### C5 -/

theorem find?_updateFirst_map {α : Type} (p : α → Bool) (f : α → α)
    (l : List α) (hf : ∀ a, p a = true → p (f a) = true) :
    (updateFirst p f l).find? p = (l.find? p).map f := by
  induction l with
  | nil => rfl
  | cons a t ih =>
    by_cases ha : p a = true
    · simp only [updateFirst, if_pos ha]
      rw [List.find?_cons_of_pos _ (hf a ha), List.find?_cons_of_pos _ ha]
      rfl
    · simp only [updateFirst, if_neg ha]
      rw [List.find?_cons_of_neg _ ha, List.find?_cons_of_neg _ ha]
      exact ih

/-- C5 (amended): on every successful publish with the story row present,
the story's `next_release_at` is recomputed as `now + cadence interval`
(`_calculate_next_release(datetime.now, frequency)`), not from the
remaining scheduled episodes' trigger times — and it is never cleared to
null: the remaining-scheduled `count()` runs before the in-session status
flip is flushed (`autoflush=False`), so it always still counts the
episode being published and is therefore positive.  The
completed-episode counter is incremented alongside. -/
theorem publish_episode_next_release (db : DB) (sid : String) (i : Nat)
    (now : Int) (e : Episode) (st : Story)
    (hsched : db.episodes.find? (schedPred sid i) = some e)
    (hst : findStory db sid = some st) :
    (publish_episode db sid i now).db.stories.find?
        (fun s => decide (s.id = sid)) =
      some { st with
        completed_episodes := st.completed_episodes + 1
        next_release_at :=
          some (calculate_next_release now st.release_frequency) } := by
  have hrem : 0 < db.episodes.countP
      (fun x => decide (x.story_id = sid ∧
        x.status = EpisodeStatus.scheduled)) := by
    rw [List.countP_pos_iff]
    refine ⟨e, List.mem_of_find?_eq_some hsched, ?_⟩
    have hp := List.find?_some hsched
    simp only [schedPred, decide_eq_true_eq] at hp
    simp [hp.1, hp.2.2]
  unfold publish_episode
  rw [hsched, hst]
  simp only [if_pos hrem]
  rw [show (send_episode_notification
      { db with
        episodes := updateFirst (schedPred sid i) (publishUpdate now)
          db.episodes
        stories := updateFirst (fun s => decide (s.id = sid))
          (fun s => { s with
            completed_episodes := s.completed_episodes + 1
            next_release_at :=
              some (calculate_next_release now st.release_frequency) })
          db.stories } sid i).stories =
    updateFirst (fun s => decide (s.id = sid))
      (fun s => { s with
        completed_episodes := s.completed_episodes + 1
        next_release_at :=
          some (calculate_next_release now st.release_frequency) })
      db.stories from rfl]
  rw [find?_updateFirst_map (fun s => decide (s.id = sid))
    (fun s => { s with
      completed_episodes := s.completed_episodes + 1
      next_release_at :=
        some (calculate_next_release now st.release_frequency) })
    db.stories (fun a ha => ha)]
  rw [show findStory db sid = db.stories.find? (fun s => decide (s.id = sid))
    from rfl] at hst
  rw [hst]
  rfl

/-- C5 counterexample: publishing the only scheduled episode of a story
leaves zero truly-remaining scheduled episodes, yet `next_release_at` is
set to `now + 24h` (87400 for now = 1000), not cleared to null — and that
value is not derived from any episode's stored trigger time. -/
theorem publish_next_release_counterexample :
    ((publish_episode
        (DB.mk [⟨"s", 0, some 0, ReleaseFrequency.daily, "UTC", some 100, true⟩]
          [⟨1, "s", 1, EpisodeStatus.scheduled, none, some 100⟩] [] [] [] [])
        "s" 1 1000).db.episodes.countP
      (fun e => decide (e.status = EpisodeStatus.scheduled)) = 0) ∧
    ((publish_episode
        (DB.mk [⟨"s", 0, some 0, ReleaseFrequency.daily, "UTC", some 100, true⟩]
          [⟨1, "s", 1, EpisodeStatus.scheduled, none, some 100⟩] [] [] [] [])
        "s" 1 1000).db.stories.map Story.next_release_at = [some 87400]) := by
  refine ⟨by decide, by decide⟩

/-- C5 witness: the amended next-release theorem applied to a concrete
two-episode story. -/
theorem publish_episode_next_release_witness :
    (DB.mk [⟨"s", 0, some 0, ReleaseFrequency.daily, "UTC", some 100, true⟩]
        [⟨1, "s", 1, EpisodeStatus.scheduled, none, some 100⟩,
         ⟨2, "s", 2, EpisodeStatus.scheduled, none, some 86500⟩]
        [] [] [] []).episodes.find? (schedPred "s" 1) =
      some ⟨1, "s", 1, EpisodeStatus.scheduled, none, some 100⟩ ∧
    findStory
      (DB.mk [⟨"s", 0, some 0, ReleaseFrequency.daily, "UTC", some 100, true⟩]
        [⟨1, "s", 1, EpisodeStatus.scheduled, none, some 100⟩,
         ⟨2, "s", 2, EpisodeStatus.scheduled, none, some 86500⟩]
        [] [] [] []) "s" =
      some ⟨"s", 0, some 0, ReleaseFrequency.daily, "UTC", some 100, true⟩ ∧
    (publish_episode
      (DB.mk [⟨"s", 0, some 0, ReleaseFrequency.daily, "UTC", some 100, true⟩]
        [⟨1, "s", 1, EpisodeStatus.scheduled, none, some 100⟩,
         ⟨2, "s", 2, EpisodeStatus.scheduled, none, some 86500⟩]
        [] [] [] [])
      "s" 1 1000).db.stories.find? (fun s => decide (s.id = "s")) =
      some ⟨"s", 1, some 0, ReleaseFrequency.daily, "UTC",
        some (calculate_next_release 1000 ReleaseFrequency.daily), true⟩ := by
  refine ⟨by decide, by decide, ?_⟩
  exact publish_episode_next_release _ "s" 1 1000
    ⟨1, "s", 1, EpisodeStatus.scheduled, none, some 100⟩
    ⟨"s", 0, some 0, ReleaseFrequency.daily, "UTC", some 100, true⟩
    (by decide) (by decide)

/-! ### C6, C7 -/

theorem emailAttemptLoop_always_fail (send : Nat → EmailResult)
    (hfail : ∀ n, (send n).success = false) (mr bd : Nat) (now : Int) :
    ∀ fuel attempt log, 1 ≤ fuel → mr = attempt + fuel →
    emailAttemptLoop send mr bd now fuel attempt log =
      ⟨{ log with
          status := NotificationStatus.failed
          attempts := mr
          error_message :=
            some ((send (mr - 1)).error.getD "Email sending failed") },
        (List.range' attempt (fuel - 1)).map (fun k => bd * 2 ^ k),
        fuel, true⟩ := by
  intro fuel
  induction fuel with
  | zero => intro attempt log h; omega
  | succ f ih =>
    intro attempt log _ hmr
    simp only [emailAttemptLoop, hfail attempt, Bool.false_eq_true, if_false]
    by_cases hf : f = 0
    · subst hf
      have h1 : mr ≤ attempt + 1 := by omega
      simp only [if_pos h1]
      have h2 : mr - 1 = attempt := by omega
      have h3 : mr = attempt + 1 := by omega
      rw [h2, h3]
      rfl
    · obtain ⟨k, rfl⟩ : ∃ k, f = k + 1 := ⟨f - 1, by omega⟩
      have h1 : ¬ (mr ≤ attempt + 1) := by omega
      simp only [if_neg h1]
      rw [ih (attempt + 1) _ (by omega) (by omega)]
      simp only [Nat.add_sub_cancel, List.range'_succ, List.map_cons]

theorem pushAttemptLoop_always_fail (send : Nat → PushResult)
    (hfail : ∀ n, (send n).success = false)
    (hperm : ∀ n, (send n).should_remove_subscription = false)
    (mr bd : Nat) (now : Int) :
    ∀ fuel attempt log, 1 ≤ fuel → mr = attempt + fuel →
    pushAttemptLoop send mr bd now fuel attempt log =
      ⟨{ log with
          status := NotificationStatus.failed
          attempts := mr
          error_message :=
            some ((send (mr - 1)).error_message.getD "Web push failed") },
        (List.range' attempt (fuel - 1)).map (fun k => bd * 2 ^ k),
        fuel, false, false⟩ := by
  intro fuel
  induction fuel with
  | zero => intro attempt log h; omega
  | succ f ih =>
    intro attempt log _ hmr
    simp only [pushAttemptLoop, hfail attempt, hperm attempt,
      Bool.false_eq_true, if_false]
    by_cases hf : f = 0
    · subst hf
      have h1 : mr ≤ attempt + 1 := by omega
      simp only [if_pos h1]
      have h2 : mr - 1 = attempt := by omega
      have h3 : mr = attempt + 1 := by omega
      rw [h2, h3]
      rfl
    · obtain ⟨k, rfl⟩ : ∃ k, f = k + 1 := ⟨f - 1, by omega⟩
      have h1 : ¬ (mr ≤ attempt + 1) := by omega
      simp only [if_neg h1]
      rw [ih (attempt + 1) _ (by omega) (by omega)]
      simp only [Nat.add_sub_cancel, List.range'_succ, List.map_cons]

/-- C6: a channel sender that reports a (non-permanent) failure on every
try makes the retry wrapper perform exactly `max_retries` sender
invocations before the NotificationAttempt row reaches `failed` with
attempt count `max_retries`; the delays slept between consecutive
attempts are `base_delay * 2^0, base_delay * 2^1, …` — i.e.
`base_delay * 2^(attempt-1)` after the attempt-th failure.  This holds
for both the email and the web push retry loop. -/
theorem retry_cap_and_backoff (sendE : Nat → EmailResult)
    (sendP : Nat → PushResult) (mr bd : Nat) (now : Int)
    (uid sid : String) (i : Nat)
    (hE : ∀ n, (sendE n).success = false)
    (hP : ∀ n, (sendP n).success = false)
    (hPr : ∀ n, (sendP n).should_remove_subscription = false)
    (hmr : 1 ≤ mr) :
    emailAttemptLoop sendE mr bd now mr 0
        (initLog uid sid i NotificationType.email) =
      ⟨⟨uid, sid, i, NotificationType.email, NotificationStatus.failed, mr,
          some ((sendE (mr - 1)).error.getD "Email sending failed"), none⟩,
        (List.range (mr - 1)).map (fun k => bd * 2 ^ k), mr, true⟩ ∧
    pushAttemptLoop sendP mr bd now mr 0
        (initLog uid sid i NotificationType.webpush) =
      ⟨⟨uid, sid, i, NotificationType.webpush, NotificationStatus.failed, mr,
          some ((sendP (mr - 1)).error_message.getD "Web push failed"), none⟩,
        (List.range (mr - 1)).map (fun k => bd * 2 ^ k), mr, false, false⟩ := by
  constructor
  · rw [emailAttemptLoop_always_fail sendE hE mr bd now mr 0
      (initLog uid sid i NotificationType.email) hmr (by omega)]
    rw [List.range_eq_range']
    rfl
  · rw [pushAttemptLoop_always_fail sendP hP hPr mr bd now mr 0
      (initLog uid sid i NotificationType.webpush) hmr (by omega)]
    rw [List.range_eq_range']
    rfl

/-- C6 witness: always-transiently-failing senders with the default
`max_retries = 3`, `base_delay = 1`: three attempts, failed status, and
delays `[1, 2]`. -/
theorem retry_cap_and_backoff_witness :
    (∀ n : Nat, ((fun _ => ⟨false, some "boom"⟩ : Nat → EmailResult)
      n).success = false) ∧
    (∀ n : Nat, ((fun _ => ⟨false, false, some "down"⟩ : Nat → PushResult)
      n).success = false) ∧
    (∀ n : Nat, ((fun _ => ⟨false, false, some "down"⟩ : Nat → PushResult)
      n).should_remove_subscription = false) ∧
    (1 : Nat) ≤ 3 ∧
    (emailAttemptLoop (fun _ => ⟨false, some "boom"⟩) 3 1 500 3 0
        (initLog "u" "s" 1 NotificationType.email) =
      ⟨⟨"u", "s", 1, NotificationType.email, NotificationStatus.failed, 3,
          some (((fun _ => ⟨false, some "boom"⟩ : Nat → EmailResult)
            (3 - 1)).error.getD "Email sending failed"), none⟩,
        (List.range (3 - 1)).map (fun k => 1 * 2 ^ k), 3, true⟩ ∧
    pushAttemptLoop (fun _ => ⟨false, false, some "down"⟩) 3 1 500 3 0
        (initLog "u" "s" 1 NotificationType.webpush) =
      ⟨⟨"u", "s", 1, NotificationType.webpush, NotificationStatus.failed, 3,
          some (((fun _ => ⟨false, false, some "down"⟩ : Nat → PushResult)
            (3 - 1)).error_message.getD "Web push failed"), none⟩,
        (List.range (3 - 1)).map (fun k => 1 * 2 ^ k), 3, false, false⟩) := by
  refine ⟨fun n => rfl, fun n => rfl, fun n => rfl, by decide, ?_⟩
  exact retry_cap_and_backoff (fun _ => ⟨false, some "boom"⟩)
    (fun _ => ⟨false, false, some "down"⟩) 3 1 500 "u" "s" 1
    (fun n => rfl) (fun n => rfl) (fun n => rfl) (by decide)

/-- C7: a web push transport failure with HTTP status 410 on the first
attempt (classified by the sender as an expired subscription) causes
exactly one sender invocation: the NotificationAttempt row ends `failed`
with the error recorded ("Subscription expired"), the loop instructs
deletion of the push target and performs no retry (no delays); at the
worker level the user's subscription row is removed from the store and
the sent count stays 0. -/
theorem permanent_failure_single_attempt (transport : Nat → WebpushTransport)
    (mr bd : Nat) (now : Int) (uid sid : String) (i : Nat) (msg : String)
    (h410 : transport 0 = WebpushTransport.pushError (some 410) msg)
    (hmr : 1 ≤ mr) :
    pushAttemptLoop (fun n => classifyWebpush (transport n)) mr bd now mr 0
        (initLog uid sid i NotificationType.webpush) =
      ⟨⟨uid, sid, i, NotificationType.webpush, NotificationStatus.failed, 1,
          some "Subscription expired", none⟩, [], 1, true, false⟩ ∧
    (∀ (db : DB) (sub : PushSubscription),
      webpushSubLoop (fun _ n => classifyWebpush (transport n)) mr bd now
          uid sid i db [sub] =
        ({ db with
            notification_logs := db.notification_logs ++
              [⟨uid, sid, i, NotificationType.webpush,
                NotificationStatus.failed, 1, some "Subscription expired",
                none⟩]
            push_subscriptions := db.push_subscriptions.filter
              (fun s => !(s.id = sub.id : Bool)) }, 0)) := by
  obtain ⟨f, rfl⟩ : ∃ f, mr = f + 1 := ⟨mr - 1, by omega⟩
  have hc : classifyWebpush (transport 0) =
      ⟨false, true, some "Push subscription expired"⟩ := by
    rw [h410]
    rfl
  have hloop : pushAttemptLoop (fun n => classifyWebpush (transport n))
      (f + 1) bd now (f + 1) 0 (initLog uid sid i NotificationType.webpush) =
      ⟨⟨uid, sid, i, NotificationType.webpush, NotificationStatus.failed, 1,
          some "Subscription expired", none⟩, [], 1, true, false⟩ := by
    simp only [pushAttemptLoop, hc]
    simp [initLog]
  refine ⟨hloop, ?_⟩
  intro db sub
  simp only [webpushSubLoop, hloop]
  simp

/-- C7 witness: a transport answering HTTP 410 immediately, with
`max_retries = 3`. -/
theorem permanent_failure_single_attempt_witness :
    (fun _ : Nat => WebpushTransport.pushError (some 410) "gone") 0 =
      WebpushTransport.pushError (some 410) "gone" ∧
    (1 : Nat) ≤ 3 ∧
    (pushAttemptLoop
        (fun n => classifyWebpush
          ((fun _ : Nat => WebpushTransport.pushError (some 410) "gone") n))
        3 1 500 3 0 (initLog "u" "s" 1 NotificationType.webpush) =
      ⟨⟨"u", "s", 1, NotificationType.webpush, NotificationStatus.failed, 1,
          some "Subscription expired", none⟩, [], 1, true, false⟩ ∧
    (∀ (db : DB) (sub : PushSubscription),
      webpushSubLoop
          (fun _ n => classifyWebpush
            ((fun _ : Nat => WebpushTransport.pushError (some 410) "gone") n))
          3 1 500 "u" "s" 1 db [sub] =
        ({ db with
            notification_logs := db.notification_logs ++
              [⟨"u", "s", 1, NotificationType.webpush,
                NotificationStatus.failed, 1, some "Subscription expired",
                none⟩]
            push_subscriptions := db.push_subscriptions.filter
              (fun s => !(s.id = sub.id : Bool)) }, 0))) := by
  refine ⟨rfl, by decide, ?_⟩
  exact permanent_failure_single_attempt
    (fun _ => WebpushTransport.pushError (some 410) "gone")
    3 1 500 "u" "s" 1 "gone" rfl (by decide)

/-! ### C8 -/

set_option synthInstance.maxSize 1000 in
/-- C8 counterexample: fanning out to 3 users (both channels enabled, no
email address on file, one push subscription each) where user 2's send
always fails permanently: users 1 and 3 end `sent` and user 2 `failed`,
the expired subscription is deleted — but the returned `errors` list is
empty, not `[user 2's failure]`: the permanent-failure branch `break`s
without raising, so nothing reaches the per-user exception handler. -/
theorem fanout_permanent_failure_counterexample :
    (send_episode_notifications
        (DB.mk [⟨"s", 0, none, ReleaseFrequency.daily, "UTC", none, false⟩]
          [⟨1, "s", 1, EpisodeStatus.published, some 10, none⟩] []
          [⟨"u1", true, true, none⟩, ⟨"u2", true, true, none⟩,
           ⟨"u3", true, true, none⟩]
          [⟨1, "u1", "e1", "k", "a"⟩, ⟨2, "u2", "e2", "k", "a"⟩,
           ⟨3, "u3", "e3", "k", "a"⟩] [])
        "s" 1 none (fun _ _ => ⟨true, none⟩)
        (fun endp _ =>
          if endp = "e2" then ⟨false, true, some "Push subscription expired"⟩
          else ⟨true, false, none⟩)
        3 1 500).toOption.map
      (fun r => (r.2.errors, r.2.notifications_sent, r.2.webpush_sent,
        r.1.notification_logs.map (fun l => (l.user_id, l.status)),
        r.1.push_subscriptions.map PushSubscription.id)) =
      some ([], 3, 2,
        [("u1", NotificationStatus.sent), ("u2", NotificationStatus.failed),
         ("u3", NotificationStatus.sent)], [1, 3]) := by
  decide

set_option synthInstance.maxSize 1000 in
/-- C8 (amended): a per-user failure that raises out of the user's block
— e.g. an email send that exhausts its retries — is caught and appended
to `errors` without aborting delivery to the remaining users: with 3
users whose email sender always fails for user 2 only, users 1 and 3
still end `sent` and `errors` contains exactly user 2's failure.  A
**permanent web push** failure, by contrast, never raises: it is recorded
only in the NotificationAttempt row (and deletes the subscription) and is
not appended to `errors` (see the counterexample). -/
theorem fanout_partial_failure_isolation :
    (send_episode_notifications
        (DB.mk [⟨"s", 0, none, ReleaseFrequency.daily, "UTC", none, false⟩]
          [⟨1, "s", 1, EpisodeStatus.published, some 10, none⟩] []
          [⟨"u1", true, true, some "u1@x"⟩, ⟨"u2", true, true, some "u2@x"⟩,
           ⟨"u3", true, true, some "u3@x"⟩] [] [])
        "s" 1 none
        (fun addr _ =>
          if addr = "u2@x" then ⟨false, some "SMTP down"⟩ else ⟨true, none⟩)
        (fun _ _ => ⟨true, false, none⟩)
        3 1 500).toOption.map
      (fun r => (r.2.errors, r.2.notifications_sent, r.2.email_sent,
        r.1.notification_logs.map (fun l => (l.user_id, l.status, l.attempts)))) =
      some (["Failed to notify user u2: SMTP down"], 2, 2,
        [("u1", NotificationStatus.sent, 1),
         ("u2", NotificationStatus.failed, 3),
         ("u3", NotificationStatus.sent, 1)]) := by
  decide

/-! ### C9 -/

theorem removeJobs_mem (ids : List String) (jobs : List Job) (acc : Nat) :
    ∀ j ∈ (removeJobs jobs ids acc).1, j ∈ jobs ∧ ∀ s ∈ ids, j.id ≠ s := by
  induction ids generalizing jobs acc with
  | nil =>
    intro j hj
    exact ⟨hj, by simp⟩
  | cons jid rest ih =>
    intro j hj
    simp only [removeJobs] at hj
    by_cases h : jobs.any (fun x => decide (x.id = jid)) = true
    · rw [if_pos h] at hj
      obtain ⟨hmem, hrest⟩ := ih _ _ j hj
      have hj' := List.mem_filter.mp hmem
      refine ⟨hj'.1, ?_⟩
      intro s hs
      cases List.mem_cons.mp hs with
      | inl h1 =>
        subst h1
        simpa using hj'.2
      | inr h2 => exact hrest s h2
    · rw [if_neg h] at hj
      obtain ⟨hmem, hrest⟩ := ih _ _ j hj
      refine ⟨hmem, ?_⟩
      intro s hs
      cases List.mem_cons.mp hs with
      | inl h1 =>
        subst h1
        intro hc
        apply h
        rw [List.any_eq_true]
        exact ⟨j, hmem, by simp [hc]⟩
      | inr h2 => exact hrest s h2

/-- C9: `cancel_story_schedule` on an existing story resets every
scheduled episode of the story to draft with its scheduled time cleared,
leaves every published episode entirely unchanged, leaves no live job
whose id is the publish-job id of a previously scheduled episode of the
story, and clears the story's serialization flag and `next_release_at`. -/
theorem cancel_story_schedule_spec (db : DB) (sid : String) (st : Story)
    (hst : findStory db sid = some st) :
    ∃ db' n, cancel_story_schedule db sid = .ok (db', n) ∧
      (∀ e ∈ db.episodes, e.story_id = sid →
        e.status = EpisodeStatus.scheduled →
        ({ e with status := EpisodeStatus.draft, scheduled_for := none })
          ∈ db'.episodes) ∧
      (∀ e ∈ db.episodes, e.status = EpisodeStatus.published →
        e ∈ db'.episodes) ∧
      (∀ e ∈ db.episodes, e.story_id = sid →
        e.status = EpisodeStatus.scheduled →
        ∀ j ∈ db'.jobs, j.id ≠ jobId sid e.episode_index) ∧
      db'.stories.find? (fun s => decide (s.id = sid)) =
        some { st with is_serialized := false, next_release_at := none } := by
  unfold cancel_story_schedule
  rw [hst]
  refine ⟨_, _, rfl, ?_, ?_, ?_, ?_⟩
  · intro e he h1 h2
    have hm := List.mem_map_of_mem (cancelEp sid) he
    rwa [show cancelEp sid e =
      { e with status := EpisodeStatus.draft, scheduled_for := none }
      from by simp [cancelEp, h1, h2]] at hm
  · intro e he h2
    have hm := List.mem_map_of_mem (cancelEp sid) he
    rwa [show cancelEp sid e = e from by simp [cancelEp, h2]] at hm
  · intro e he h1 h2 j hj
    have hid : jobId sid e.episode_index ∈
        (db.episodes.filter
          (fun e => decide (e.story_id = sid ∧
            e.status = EpisodeStatus.scheduled))).map
          (fun e => jobId sid e.episode_index) :=
      List.mem_map_of_mem _ (List.mem_filter.mpr ⟨he, by simp [h1, h2]⟩)
    exact (removeJobs_mem _ db.jobs 0 j hj).2 _ hid
  · rw [show findStory db sid =
      db.stories.find? (fun s => decide (s.id = sid)) from rfl] at hst
    rw [find?_updateFirst_map (fun s => decide (s.id = sid))
      (fun s => { s with is_serialized := false, next_release_at := none })
      db.stories (fun a ha => ha), hst]
    rfl

/-- C9 witness: cancelling a story with three scheduled episodes (live
jobs present) and one already-published episode. -/
theorem cancel_story_schedule_spec_witness :
    findStory
      (DB.mk [⟨"s", 1, some 0, ReleaseFrequency.daily, "UTC", some 200, true⟩]
        [⟨1, "s", 1, EpisodeStatus.published, some 90, some 80⟩,
         ⟨2, "s", 2, EpisodeStatus.scheduled, none, some 200⟩,
         ⟨3, "s", 3, EpisodeStatus.scheduled, none, some 300⟩,
         ⟨4, "s", 4, EpisodeStatus.scheduled, none, some 400⟩]
        [⟨jobId "s" 2, 200, "s", 2⟩, ⟨jobId "s" 3, 300, "s", 3⟩,
         ⟨jobId "s" 4, 400, "s", 4⟩] [] [] []) "s" =
      some ⟨"s", 1, some 0, ReleaseFrequency.daily, "UTC", some 200, true⟩ ∧
    (∃ db' n, cancel_story_schedule
        (DB.mk [⟨"s", 1, some 0, ReleaseFrequency.daily, "UTC", some 200, true⟩]
          [⟨1, "s", 1, EpisodeStatus.published, some 90, some 80⟩,
           ⟨2, "s", 2, EpisodeStatus.scheduled, none, some 200⟩,
           ⟨3, "s", 3, EpisodeStatus.scheduled, none, some 300⟩,
           ⟨4, "s", 4, EpisodeStatus.scheduled, none, some 400⟩]
          [⟨jobId "s" 2, 200, "s", 2⟩, ⟨jobId "s" 3, 300, "s", 3⟩,
           ⟨jobId "s" 4, 400, "s", 4⟩] [] [] []) "s" = .ok (db', n) ∧
      (∀ e ∈ (DB.mk [⟨"s", 1, some 0, ReleaseFrequency.daily, "UTC", some 200,
            true⟩]
          [⟨1, "s", 1, EpisodeStatus.published, some 90, some 80⟩,
           ⟨2, "s", 2, EpisodeStatus.scheduled, none, some 200⟩,
           ⟨3, "s", 3, EpisodeStatus.scheduled, none, some 300⟩,
           ⟨4, "s", 4, EpisodeStatus.scheduled, none, some 400⟩]
          [⟨jobId "s" 2, 200, "s", 2⟩, ⟨jobId "s" 3, 300, "s", 3⟩,
           ⟨jobId "s" 4, 400, "s", 4⟩] [] [] []).episodes,
        e.story_id = "s" → e.status = EpisodeStatus.scheduled →
        ({ e with status := EpisodeStatus.draft, scheduled_for := none })
          ∈ db'.episodes) ∧
      (∀ e ∈ (DB.mk [⟨"s", 1, some 0, ReleaseFrequency.daily, "UTC", some 200,
            true⟩]
          [⟨1, "s", 1, EpisodeStatus.published, some 90, some 80⟩,
           ⟨2, "s", 2, EpisodeStatus.scheduled, none, some 200⟩,
           ⟨3, "s", 3, EpisodeStatus.scheduled, none, some 300⟩,
           ⟨4, "s", 4, EpisodeStatus.scheduled, none, some 400⟩]
          [⟨jobId "s" 2, 200, "s", 2⟩, ⟨jobId "s" 3, 300, "s", 3⟩,
           ⟨jobId "s" 4, 400, "s", 4⟩] [] [] []).episodes,
        e.status = EpisodeStatus.published → e ∈ db'.episodes) ∧
      (∀ e ∈ (DB.mk [⟨"s", 1, some 0, ReleaseFrequency.daily, "UTC", some 200,
            true⟩]
          [⟨1, "s", 1, EpisodeStatus.published, some 90, some 80⟩,
           ⟨2, "s", 2, EpisodeStatus.scheduled, none, some 200⟩,
           ⟨3, "s", 3, EpisodeStatus.scheduled, none, some 300⟩,
           ⟨4, "s", 4, EpisodeStatus.scheduled, none, some 400⟩]
          [⟨jobId "s" 2, 200, "s", 2⟩, ⟨jobId "s" 3, 300, "s", 3⟩,
           ⟨jobId "s" 4, 400, "s", 4⟩] [] [] []).episodes,
        e.story_id = "s" → e.status = EpisodeStatus.scheduled →
        ∀ j ∈ db'.jobs, j.id ≠ jobId "s" e.episode_index) ∧
      db'.stories.find? (fun s => decide (s.id = "s")) =
        some ⟨"s", 1, some 0, ReleaseFrequency.daily, "UTC", none, false⟩) := by
  refine ⟨by decide, ?_⟩
  exact cancel_story_schedule_spec _ "s"
    ⟨"s", 1, some 0, ReleaseFrequency.daily, "UTC", some 200, true⟩ (by decide)

/-! ### C10 -/

theorem updateFirst_mem_of_find? {α : Type} (p : α → Bool) (f : α → α)
    (l : List α) (e : α) (h : l.find? p = some e) :
    f e ∈ updateFirst p f l := by
  induction l with
  | nil => cases h
  | cons a t ih =>
    by_cases ha : p a = true
    · rw [List.find?_cons_of_pos _ ha] at h
      injection h with h
      subst h
      simp only [updateFirst, if_pos ha]
      exact List.mem_cons_self _ _
    · rw [List.find?_cons_of_neg _ ha] at h
      simp only [updateFirst, if_neg ha]
      exact List.mem_cons_of_mem _ (ih h)

/-- C10 (implicit): when the target episode is scheduled but the parent
Story row is absent, `publish_episode` still flips the episode to
published with its published time set, commits, and proceeds to the
notification step (no error path is taken — the `if story:` guard simply
skips the story mutations): the store's stories are untouched, so the
completed-episode counter and `next_release` update are silently
skipped. -/
theorem publish_episode_without_story (db : DB) (sid : String) (i : Nat)
    (now : Int) (e : Episode)
    (hsched : db.episodes.find? (schedPred sid i) = some e)
    (hnostory : findStory db sid = none) :
    publish_episode db sid i now =
      ⟨{ db with episodes :=
          updateFirst (schedPred sid i) (publishUpdate now) db.episodes },
        true, true⟩ ∧
    { e with status := EpisodeStatus.published, published_at := some now }
      ∈ (publish_episode db sid i now).db.episodes ∧
    (publish_episode db sid i now).db.stories = db.stories := by
  have hshape : publish_episode db sid i now =
      ⟨{ db with episodes :=
          updateFirst (schedPred sid i) (publishUpdate now) db.episodes },
        true, true⟩ := by
    unfold publish_episode
    rw [hsched, hnostory]
    rfl
  refine ⟨hshape, ?_, by rw [hshape]⟩
  rw [hshape]
  exact updateFirst_mem_of_find? (schedPred sid i) (publishUpdate now)
    db.episodes e hsched

/-- C10 witness: a scheduled episode whose story row is missing from the
store. -/
theorem publish_episode_without_story_witness :
    (DB.mk [] [⟨1, "ghost", 1, EpisodeStatus.scheduled, none, some 50⟩]
        [] [] [] []).episodes.find? (schedPred "ghost" 1) =
      some ⟨1, "ghost", 1, EpisodeStatus.scheduled, none, some 50⟩ ∧
    findStory
      (DB.mk [] [⟨1, "ghost", 1, EpisodeStatus.scheduled, none, some 50⟩]
        [] [] [] []) "ghost" = none ∧
    (publish_episode
        (DB.mk [] [⟨1, "ghost", 1, EpisodeStatus.scheduled, none, some 50⟩]
          [] [] [] []) "ghost" 1 777 =
      ⟨DB.mk []
          (updateFirst (schedPred "ghost" 1) (publishUpdate 777)
            [⟨1, "ghost", 1, EpisodeStatus.scheduled, none, some 50⟩])
          [] [] [] [],
        true, true⟩ ∧
    (⟨1, "ghost", 1, EpisodeStatus.published, some 777, some 50⟩ : Episode)
      ∈ (publish_episode
        (DB.mk [] [⟨1, "ghost", 1, EpisodeStatus.scheduled, none, some 50⟩]
          [] [] [] []) "ghost" 1 777).db.episodes ∧
    (publish_episode
        (DB.mk [] [⟨1, "ghost", 1, EpisodeStatus.scheduled, none, some 50⟩]
          [] [] [] []) "ghost" 1 777).db.stories =
      (DB.mk [] [⟨1, "ghost", 1, EpisodeStatus.scheduled, none, some 50⟩]
        [] [] [] []).stories) := by
  refine ⟨by decide, by decide, ?_⟩
  exact publish_episode_without_story _ "ghost" 1 777
    ⟨1, "ghost", 1, EpisodeStatus.scheduled, none, some 50⟩
    (by decide) (by decide)
